import Mathlib

/-!
Verification development for the STM32L4 HAL SWPMI driver
(src/STM32L4xx_HAL_Driver/Src/stm32l4xx_hal_swpmi.c), shallowly embedded
in Lean.  The source file in src/ contains the driver documentation and
the body of HAL_SWPMI_Init up to the voltage-class configuration; the
remaining driver operations (callback registration, transmit/receive,
the wait-on-flag helper) are declared or documented there but their
bodies are absent from src/, so they are modelled from the spec, as
flagged by their doc comments.
-/

/-- 32-bit all-ones mask used to express CLEAR_BIT / MODIFY_REG
(read-modify-write with the field mask) on Nat-modelled registers. -/
def mask32 : Nat := 0xFFFFFFFF

/-- Modelled from the spec: bit mask of the SWPACT (interface activate)
bit of the SWPMI CR register.  The CMSIS headers under src/ are stubs
without the bit definitions; the concrete single-bit value is immaterial
to every claim, only that it is a fixed CR bit mask. -/
def SWPMI_CR_SWPACT : Nat := 0x20

/-- Modelled from the spec: bit mask of the CLASS (voltage class) field
of the SWPMI OR register; stub headers omit the value. -/
def SWPMI_OR_CLASS : Nat := 0x2

/-- Modelled from the spec: bit mask of the TXMODE (Tx buffering mode)
bit of the SWPMI CR register; stub headers omit the value. -/
def SWPMI_CR_TXMODE : Nat := 0x8

/-- Modelled from the spec: bit mask of the RXMODE (Rx buffering mode)
bit of the SWPMI CR register; stub headers omit the value. -/
def SWPMI_CR_RXMODE : Nat := 0x4

/-- HAL_StatusTypeDef: the HAL return statuses. -/
inductive HAL_Status
  | ok
  | error
  | busy
  | timeout
deriving DecidableEq

/-- HAL_LockTypeDef: the handle re-entrancy lock. -/
inductive HAL_Lock
  | unlocked
  | locked
deriving DecidableEq

/-- HAL_SWPMI_StateTypeDef: the handle lifecycle states named by the
spec (Reset, Ready, Busy, BusyTx, BusyRx, BusyTxRx, Timeout, Error). -/
inductive HAL_SWPMI_State
  | reset
  | ready
  | busy
  | busyTx
  | busyRx
  | busyTxRx
  | timeout
  | error
deriving DecidableEq

/-- SWPMI_InitTypeDef: the configuration programmed by the caller
(voltage class, bit rate, Tx and Rx buffering modes). -/
structure SWPMI_InitTypeDef where
  VoltageClass : Nat
  BitRate : Nat
  TxBufferingMode : Nat
  RxBufferingMode : Nat
deriving DecidableEq

/-- SWPMI_TypeDef: the memory-mapped register block of the peripheral
instance, registers modelled as 32-bit naturals.  Only the registers
touched by the code under src/ are carried. -/
structure SWPMI_TypeDef where
  CR : Nat
  ICR : Nat
  OR : Nat
deriving DecidableEq

/-- Callback function pointers: either one of the weak predefined
(default) callbacks of the driver or a user-registered handler,
identified by an opaque number. -/
inductive CbPtr
  | weakRxCplt
  | weakRxHalfCplt
  | weakTxCplt
  | weakTxHalfCplt
  | weakError
  | weakMspInit
  | weakMspDeInit
  | user (n : Nat)
deriving DecidableEq

/-- SWPMI_HandleTypeDef with USE_HAL_SWPMI_REGISTER_CALLBACKS == 1:
register-block instance, configuration, lifecycle state, lock and the
seven callback slots (None models a NULL function pointer). -/
structure SWPMI_HandleTypeDef where
  Instance : SWPMI_TypeDef
  Init : SWPMI_InitTypeDef
  State : HAL_SWPMI_State
  Lock : HAL_Lock
  RxCpltCallback : Option CbPtr
  RxHalfCpltCallback : Option CbPtr
  TxCpltCallback : Option CbPtr
  TxHalfCpltCallback : Option CbPtr
  ErrorCallback : Option CbPtr
  MspInitCallback : Option CbPtr
  MspDeInitCallback : Option CbPtr
deriving DecidableEq

/-- Modelled from the spec: IS_SWPMI_VOLTAGE_CLASS parameter check.
The macro lives in the driver header, absent from src/; valid values
are the two values of the OR CLASS field (class C = 0, class B = the
CLASS mask), matching the configuration write in the source. -/
def IS_SWPMI_VOLTAGE_CLASS (v : Nat) : Bool :=
  v == 0 || v == SWPMI_OR_CLASS

/-- Modelled from the spec: IS_SWPMI_BITRATE_VALUE parameter check
(macro absent from src/); the bit rate is an 8-bit divider value. -/
def IS_SWPMI_BITRATE_VALUE (v : Nat) : Bool :=
  v ≤ 255

/-- Modelled from the spec: IS_SWPMI_TX_BUFFERING_MODE parameter check
(macro absent from src/); valid values are no-buffer (0) and the CR
TXMODE multi-buffer mode. -/
def IS_SWPMI_TX_BUFFERING_MODE (v : Nat) : Bool :=
  v == 0 || v == SWPMI_CR_TXMODE

/-- Modelled from the spec: IS_SWPMI_RX_BUFFERING_MODE parameter check
(macro absent from src/); valid values are no-buffer (0) and the CR
RXMODE multi-buffer mode. -/
def IS_SWPMI_RX_BUFFERING_MODE (v : Nat) : Bool :=
  v == 0 || v == SWPMI_CR_RXMODE

/-- Conjunction of the four assert_param configuration checks made at
the top of HAL_SWPMI_Init (source lines 251 to 254). -/
def SWPMI_ConfigValid (cfg : SWPMI_InitTypeDef) : Bool :=
  IS_SWPMI_VOLTAGE_CLASS cfg.VoltageClass &&
  IS_SWPMI_BITRATE_VALUE cfg.BitRate &&
  IS_SWPMI_TX_BUFFERING_MODE cfg.TxBufferingMode &&
  IS_SWPMI_RX_BUFFERING_MODE cfg.RxBufferingMode

/-- Observable steps performed by HAL_SWPMI_Init, in execution order:
handle-lock initialization, reset of the transfer callback slots,
invocation of the Msp-init collaborator, handle state assignment, and
the SWPMI register writes (CLEAR_BIT of CR SWPACT, WRITE_REG of ICR,
MODIFY_REG of the OR CLASS field, remaining configuration). -/
inductive InitAction
  | setLockUnlocked
  | resetTransferCallbacks
  | invokeMspInit (cb : CbPtr)
  | setState (s : HAL_SWPMI_State)
  | regClearSWPACT
  | regWriteICR (v : Nat)
  | regModifyORClass (v : Nat)
  | regApplyRemainingConfig
deriving DecidableEq

/-- Classifies the init actions that are SWPMI peripheral register
accesses (as opposed to handle mutations or external Msp calls). -/
def InitAction.isRegWrite : InitAction → Bool
  | InitAction.regClearSWPACT => true
  | InitAction.regWriteICR _ => true
  | InitAction.regModifyORClass _ => true
  | InitAction.regApplyRemainingConfig => true
  | _ => false

/-- Error taxonomy of the spec for the failures of init: InvalidHandle
for a NULL handle reference, InvalidConfig for a configuration that
fails validation.  Both are surfaced by the code as HAL_ERROR; the
field records which failure branch was taken. -/
inductive InitFailure
  | invalidHandle
  | invalidConfig
deriving DecidableEq

/-- Result of a HAL_SWPMI_Init call: the HAL status, the failure kind
taken (if any), the handle after the call (None when the reference was
NULL), the ordered trace of observable actions, and the Msp-init
callback that was invoked (if any). -/
structure InitOutcome where
  status : HAL_Status
  failure : Option InitFailure
  handle : Option SWPMI_HandleTypeDef
  actions : List InitAction
  mspInvoked : Option CbPtr
deriving DecidableEq

/-- State-RESET branch of HAL_SWPMI_Init (source lines 256 to 279):
the lock is initialized, the five transfer callback slots are reset to
the weak predefined callbacks, and the MspInitCallback slot is set to
the weak default only when it is NULL (a user-registered MspInit is
kept). -/
def SWPMI_Init_resetBranch (h : SWPMI_HandleTypeDef) : SWPMI_HandleTypeDef :=
  { h with
    Lock := HAL_Lock.unlocked,
    RxCpltCallback := some CbPtr.weakRxCplt,
    RxHalfCpltCallback := some CbPtr.weakRxHalfCplt,
    TxCpltCallback := some CbPtr.weakTxCplt,
    TxHalfCpltCallback := some CbPtr.weakTxHalfCplt,
    ErrorCallback := some CbPtr.weakError,
    MspInitCallback := some (h.MspInitCallback.getD CbPtr.weakMspInit) }

/-- Action trace of the state-RESET branch of HAL_SWPMI_Init; the Msp
init collaborator invoked is the user-registered callback when one is
present, the weak default otherwise (source lines 270 to 274). -/
def SWPMI_Init_resetActions (h : SWPMI_HandleTypeDef) : List InitAction :=
  [InitAction.setLockUnlocked,
   InitAction.resetTransferCallbacks,
   InitAction.invokeMspInit (h.MspInitCallback.getD CbPtr.weakMspInit)]

/-- Action trace of the unconditional configuration part of
HAL_SWPMI_Init (source lines 281 to 290 and, for the last two actions,
modelled from the spec: the tail of the function past the end of the
src/ file applies the remaining configuration and ends in Ready). -/
def SWPMI_Init_configActions (h : SWPMI_HandleTypeDef) : List InitAction :=
  [InitAction.setState HAL_SWPMI_State.busy,
   InitAction.regClearSWPACT,
   InitAction.regWriteICR 0x019F,
   InitAction.regModifyORClass h.Init.VoltageClass,
   InitAction.regApplyRemainingConfig,
   InitAction.setState HAL_SWPMI_State.ready]

/-- Handle after the unconditional configuration part of
HAL_SWPMI_Init: state set to BUSY then READY, SWPACT cleared in CR
(CLEAR_BIT), ICR written with 0x019F (WRITE_REG), the OR CLASS field
replaced by the configured voltage class (MODIFY_REG).  The final
READY state is modelled from the spec (function tail absent from
src/). -/
def SWPMI_Init_configure (h : SWPMI_HandleTypeDef) : SWPMI_HandleTypeDef :=
  { h with
    State := HAL_SWPMI_State.ready,
    Instance :=
      { CR := h.Instance.CR &&& (mask32 ^^^ SWPMI_CR_SWPACT),
        ICR := 0x019F,
        OR := (h.Instance.OR &&& (mask32 ^^^ SWPMI_OR_CLASS)) ||| h.Init.VoltageClass } }

/-- HAL_SWPMI_Init (source lines 238 to 292), with the callback
registration feature enabled.  A NULL handle fails immediately with
HAL_ERROR (spec name: InvalidHandle) and nothing happens.  The
assert_param configuration validation is modelled from the spec
(failing with InvalidConfig before any register access) since the
assert_param definition is absent from src/.  Otherwise, with no guard
on the entry state, the RESET branch runs exactly when the entry state
is RESET, and the configuration sequence runs unconditionally. -/
def HAL_SWPMI_Init (hswpmi : Option SWPMI_HandleTypeDef) : InitOutcome :=
  match hswpmi with
  | none =>
    { status := HAL_Status.error, failure := some InitFailure.invalidHandle,
      handle := none, actions := [], mspInvoked := none }
  | some h =>
    if SWPMI_ConfigValid h.Init = false then
      { status := HAL_Status.error, failure := some InitFailure.invalidConfig,
        handle := some h, actions := [], mspInvoked := none }
    else if h.State = HAL_SWPMI_State.reset then
      { status := HAL_Status.ok, failure := none,
        handle := some (SWPMI_Init_configure (SWPMI_Init_resetBranch h)),
        actions := SWPMI_Init_resetActions h ++ SWPMI_Init_configActions h,
        mspInvoked := some (h.MspInitCallback.getD CbPtr.weakMspInit) }
    else
      { status := HAL_Status.ok, failure := none,
        handle := some (SWPMI_Init_configure h),
        actions := SWPMI_Init_configActions h,
        mspInvoked := none }

/-- Outcome of the shared blocking wait: the flag was observed set
(ok) or the elapsed-time bound was exceeded first (timeout). -/
inductive WaitResult
  | ok
  | timeout
deriving DecidableEq

/-- Modelled from the spec: one tick of the blocking wait loop.  The
register state over time is abstracted as a predicate on the tick
counter; each re-evaluation of the predicate advances the counter by
one tick.  The predicate is checked before the timeout condition, and
the fuel argument counts the ticks remaining until the elapsed time
first exceeds the timeout bound. -/
def SWPMI_WaitLoop (pred : Nat → Bool) : Nat → Nat → WaitResult × Nat
  | t, 0 => if pred t then (WaitResult.ok, t) else (WaitResult.timeout, t)
  | t, fuel + 1 => if pred t then (WaitResult.ok, t) else SWPMI_WaitLoop pred (t + 1) fuel

/-- Modelled from the spec: SWPMI_WaitOnFlagSetUntilTimeout (only its
prototype, source line 210, is in src/).  Starting at current tick t,
it re-evaluates the flag predicate until it holds (Ok, at the tick
where it first held) or until the elapsed time since tickstart first
exceeds the bound (Timeout, at tick tickstart + timeout + 1 when
entered at or before the deadline). -/
def SWPMI_WaitOnFlagSetUntilTimeout (pred : Nat → Bool) (tickstart timeout t : Nat) :
    WaitResult × Nat :=
  SWPMI_WaitLoop pred t (tickstart + timeout + 1 - t)

/-- Modelled from the spec: waitUntil(predicate, startTime,
timeoutBound), the Error/Timeout Policy entry point; it is the wait
helper entered at the start time. -/
def waitUntil (pred : Nat → Bool) (startTime timeoutBound : Nat) : WaitResult × Nat :=
  SWPMI_WaitOnFlagSetUntilTimeout pred startTime timeoutBound startTime

/-- Modelled from the spec: the Poll-mode transfer loop.  For each
remaining unit the transfer waits for the flag with the shared wait
helper (same tickstart and bound for the whole transfer), then
performs the one-unit register transaction (one tick); a timeout stops
the loop, leaving the count of fully completed units.  Returns the
status, the transferred count and the final tick. -/
def SWPMI_PollTransfer (pred : Nat → Bool) (tickstart timeout : Nat) :
    Nat → Nat → Nat → HAL_Status × Nat × Nat
  | t, 0, count => (HAL_Status.ok, count, t)
  | t, remaining + 1, count =>
    match SWPMI_WaitOnFlagSetUntilTimeout pred tickstart timeout t with
    | (WaitResult.ok, u) => SWPMI_PollTransfer pred tickstart timeout (u + 1) remaining (count + 1)
    | (WaitResult.timeout, u) => (HAL_Status.timeout, count, u)

/-- Transfer direction (transmit or receive). -/
inductive TransferDir
  | tx
  | rx
deriving DecidableEq

/-- Transfer mode: blocking poll, non-blocking interrupt-driven,
non-blocking DMA-driven. -/
inductive TransferMode
  | poll
  | interrupt
  | dma
deriving DecidableEq

/-- Register activity performed by a transfer request: per-unit data
register transactions, enabling the interrupt sources, or configuring
the DMA channel. -/
inductive TransferRegAction
  | dataRegAccess (dir : TransferDir)
  | enableInterrupts (dir : TransferDir)
  | configureDMA (dir : TransferDir)
deriving DecidableEq

/-- Result of a transfer request: HAL status, the handle after the
call, the register activity issued, and the transferred-count. -/
structure TransferOutcome where
  status : HAL_Status
  handle : SWPMI_HandleTypeDef
  regActivity : List TransferRegAction
  count : Nat
deriving DecidableEq

/-- Modelled from the spec: the common transmit/receive entry point of
the Transfer Engine (the HAL_SWPMI_Transmit/Receive bodies are absent
from src/).  A request on a handle that is not Ready fails with Busy,
issues no register activity and leaves the handle unchanged.  A
zero-length request completes immediately with count 0 and no register
activity.  Otherwise Poll mode runs the blocking per-unit loop (ending
Ready, or Timeout on a timeout with the partial count observable), and
Interrupt/DMA modes enable the sources and return immediately with the
handle in the Busy state of the direction. -/
def SWPMI_TransferRequest (h : SWPMI_HandleTypeDef) (dir : TransferDir)
    (mode : TransferMode) (len : Nat) (pred : Nat → Bool)
    (tickstart timeout : Nat) : TransferOutcome :=
  if h.State ≠ HAL_SWPMI_State.ready then
    { status := HAL_Status.busy, handle := h, regActivity := [], count := 0 }
  else if len = 0 then
    { status := HAL_Status.ok, handle := h, regActivity := [], count := 0 }
  else
    match mode with
    | TransferMode.poll =>
      match SWPMI_PollTransfer pred tickstart timeout tickstart len 0 with
      | (HAL_Status.ok, count, _) =>
        { status := HAL_Status.ok, handle := { h with State := HAL_SWPMI_State.ready },
          regActivity := List.replicate count (TransferRegAction.dataRegAccess dir),
          count := count }
      | (st, count, _) =>
        { status := st, handle := { h with State := HAL_SWPMI_State.timeout },
          regActivity := List.replicate count (TransferRegAction.dataRegAccess dir),
          count := count }
    | TransferMode.interrupt =>
      { status := HAL_Status.ok,
        handle := { h with State := if dir = TransferDir.tx then HAL_SWPMI_State.busyTx else HAL_SWPMI_State.busyRx },
        regActivity := [TransferRegAction.enableInterrupts dir], count := 0 }
    | TransferMode.dma =>
      { status := HAL_Status.ok,
        handle := { h with State := if dir = TransferDir.tx then HAL_SWPMI_State.busyTx else HAL_SWPMI_State.busyRx },
        regActivity := [TransferRegAction.configureDMA dir], count := 0 }

/-- Callback identifiers accepted by HAL_SWPMI_RegisterCallback, as
listed in the driver documentation (source lines 107 to 115). -/
inductive SWPMI_CallbackID
  | rxCplt
  | rxHalfCplt
  | txCplt
  | txHalfCplt
  | error
  | mspInit
  | mspDeInit
deriving DecidableEq

/-- The two Msp-kind callback identifiers. -/
def SWPMI_CallbackID.isMspKind : SWPMI_CallbackID → Bool
  | SWPMI_CallbackID.mspInit => true
  | SWPMI_CallbackID.mspDeInit => true
  | _ => false

/-- Status of a callback registration attempt: success, or the
InvalidState rejection of the spec. -/
inductive RegisterStatus
  | ok
  | invalidState
deriving DecidableEq

/-- Stores a handler into the callback slot selected by the
identifier. -/
def SWPMI_SetCallback (h : SWPMI_HandleTypeDef) (id : SWPMI_CallbackID)
    (cb : CbPtr) : SWPMI_HandleTypeDef :=
  match id with
  | SWPMI_CallbackID.rxCplt => { h with RxCpltCallback := some cb }
  | SWPMI_CallbackID.rxHalfCplt => { h with RxHalfCpltCallback := some cb }
  | SWPMI_CallbackID.txCplt => { h with TxCpltCallback := some cb }
  | SWPMI_CallbackID.txHalfCplt => { h with TxHalfCpltCallback := some cb }
  | SWPMI_CallbackID.error => { h with ErrorCallback := some cb }
  | SWPMI_CallbackID.mspInit => { h with MspInitCallback := some cb }
  | SWPMI_CallbackID.mspDeInit => { h with MspDeInitCallback := some cb }

/-- Modelled from the spec: HAL_SWPMI_RegisterCallback (body absent
from src/; the driver documentation, source lines 142 to 148, states
the rule).  Registration is allowed while the handle is Ready, and for
the Msp-kind callbacks also while it is Reset; any other state is
rejected with InvalidState and the handle is left unchanged. -/
def HAL_SWPMI_RegisterCallback (h : SWPMI_HandleTypeDef) (id : SWPMI_CallbackID)
    (cb : CbPtr) : RegisterStatus × SWPMI_HandleTypeDef :=
  if h.State = HAL_SWPMI_State.ready ∨
     (id.isMspKind = true ∧ h.State = HAL_SWPMI_State.reset) then
    (RegisterStatus.ok, SWPMI_SetCallback h id cb)
  else
    (RegisterStatus.invalidState, h)

/-- Concrete register block: interface active (SWPACT set), flags
clear, voltage class B selected. -/
def SWPMI_Regs0 : SWPMI_TypeDef :=
  { CR := SWPMI_CR_SWPACT, ICR := 0, OR := SWPMI_OR_CLASS }

/-- Concrete configuration passing all four validation checks. -/
def SWPMI_ValidCfg : SWPMI_InitTypeDef :=
  { VoltageClass := 0, BitRate := 1, TxBufferingMode := 0, RxBufferingMode := 0 }

/-- Concrete configuration with an invalid voltage class (5 is neither
class C nor class B). -/
def SWPMI_InvalidCfg : SWPMI_InitTypeDef :=
  { VoltageClass := 5, BitRate := 1, TxBufferingMode := 0, RxBufferingMode := 0 }

/-- Handle caught mid-transfer: state Busy, valid configuration. -/
def SWPMI_HandleBusy : SWPMI_HandleTypeDef :=
  { Instance := SWPMI_Regs0, Init := SWPMI_ValidCfg,
    State := HAL_SWPMI_State.busy, Lock := HAL_Lock.unlocked,
    RxCpltCallback := none, RxHalfCpltCallback := none,
    TxCpltCallback := none, TxHalfCpltCallback := none,
    ErrorCallback := none, MspInitCallback := none, MspDeInitCallback := none }

/-- Handle in the Ready state with a valid configuration. -/
def SWPMI_HandleReady : SWPMI_HandleTypeDef :=
  { Instance := SWPMI_Regs0, Init := SWPMI_ValidCfg,
    State := HAL_SWPMI_State.ready, Lock := HAL_Lock.unlocked,
    RxCpltCallback := none, RxHalfCpltCallback := none,
    TxCpltCallback := none, TxHalfCpltCallback := none,
    ErrorCallback := none, MspInitCallback := none, MspDeInitCallback := none }

/-- Non-null handle whose configuration fails validation. -/
def SWPMI_HandleInvalidCfg : SWPMI_HandleTypeDef :=
  { Instance := SWPMI_Regs0, Init := SWPMI_InvalidCfg,
    State := HAL_SWPMI_State.ready, Lock := HAL_Lock.unlocked,
    RxCpltCallback := none, RxHalfCpltCallback := none,
    TxCpltCallback := none, TxHalfCpltCallback := none,
    ErrorCallback := none, MspInitCallback := none, MspDeInitCallback := none }

/-- Handle in the Reset state on which a user registered every
callback before init, including a user MspInit handler. -/
def SWPMI_HandleResetUser : SWPMI_HandleTypeDef :=
  { Instance := SWPMI_Regs0, Init := SWPMI_ValidCfg,
    State := HAL_SWPMI_State.reset, Lock := HAL_Lock.locked,
    RxCpltCallback := some (CbPtr.user 1), RxHalfCpltCallback := some (CbPtr.user 2),
    TxCpltCallback := some (CbPtr.user 3), TxHalfCpltCallback := some (CbPtr.user 4),
    ErrorCallback := some (CbPtr.user 5), MspInitCallback := some (CbPtr.user 7),
    MspDeInitCallback := some (CbPtr.user 6) }

/-- Flag predicate that first holds at tick 3. -/
def predEqThree : Nat → Bool := fun t => t == 3

/-- Flag predicate that never holds. -/
def predNever : Nat → Bool := fun _ => false

/-- Handle returned by an interrupt-mode transmit issued on the Ready
handle: a transfer is then in flight on it. -/
def SWPMI_HandleInFlight : SWPMI_HandleTypeDef :=
  (SWPMI_TransferRequest SWPMI_HandleReady TransferDir.tx TransferMode.interrupt
    5 predNever 0 10).handle


/-- The wait loop returns Ok at the first tick where the flag
predicate holds, provided that tick is within the fuel window. -/
theorem SWPMI_WaitLoop_ok (pred : Nat → Bool) :
    ∀ (fuel t u : Nat), t ≤ u → u ≤ t + fuel → pred u = true →
      (∀ s, s < u → t ≤ s → pred s = false) →
      SWPMI_WaitLoop pred t fuel = (WaitResult.ok, u) := by
  intro fuel
  induction fuel with
  | zero =>
    intro t u htu hut hu _
    have : t = u := by omega
    subst this
    simp [SWPMI_WaitLoop, hu]
  | succ n ih =>
    intro t u htu hut hu hlow
    by_cases heq : t = u
    · subst heq
      simp [SWPMI_WaitLoop, hu]
    · have hlt : t < u := by omega
      have hft : pred t = false := hlow t hlt (Nat.le_refl t)
      have : SWPMI_WaitLoop pred t (n + 1) = SWPMI_WaitLoop pred (t + 1) n := by
        simp [SWPMI_WaitLoop, hft]
      rw [this]
      exact ih (t + 1) u (by omega) (by omega) hu (fun s hs hts => hlow s hs (by omega))

/-- When the flag predicate is false at every tick of the fuel window,
the wait loop returns Timeout at the tick just past the window. -/
theorem SWPMI_WaitLoop_timeout (pred : Nat → Bool) :
    ∀ (fuel t : Nat), (∀ s, s ≤ t + fuel → t ≤ s → pred s = false) →
      SWPMI_WaitLoop pred t fuel = (WaitResult.timeout, t + fuel) := by
  intro fuel
  induction fuel with
  | zero =>
    intro t hall
    have hft : pred t = false := hall t (by omega) (Nat.le_refl t)
    simp [SWPMI_WaitLoop, hft]
  | succ n ih =>
    intro t hall
    have hft : pred t = false := hall t (by omega) (Nat.le_refl t)
    have hstep : SWPMI_WaitLoop pred t (n + 1) = SWPMI_WaitLoop pred (t + 1) n := by
      simp [SWPMI_WaitLoop, hft]
    rw [hstep, ih (t + 1) (fun s hs hts => hall s (by omega) (by omega))]
    have : t + 1 + n = t + (n + 1) := by omega
    rw [this]

/-- C2: for every init call whose handle reference is absent (NULL),
init fails with the InvalidHandle error (HAL_ERROR) and performs no
register access and no handle mutation (source lines 243 to 247). -/
theorem C2_init_null_handle :
    HAL_SWPMI_Init none =
      { status := HAL_Status.error, failure := some InitFailure.invalidHandle,
        handle := none, actions := [], mspInvoked := none } := rfl

/-- C3: for every init call with a non-null handle whose configuration
fails validation, init fails with the InvalidConfig error and does not
reconfigure the peripheral (no action at all; handle unchanged). -/
theorem C3_init_invalid_config (h : SWPMI_HandleTypeDef)
    (hv : SWPMI_ConfigValid h.Init = false) :
    HAL_SWPMI_Init (some h) =
      { status := HAL_Status.error, failure := some InitFailure.invalidConfig,
        handle := some h, actions := [], mspInvoked := none } := by
  simp [HAL_SWPMI_Init, hv]

/-- Witness for C3 at a concrete handle whose voltage class is
invalid. -/
theorem C3_init_invalid_config_witness :
    SWPMI_ConfigValid SWPMI_HandleInvalidCfg.Init = false ∧
    HAL_SWPMI_Init (some SWPMI_HandleInvalidCfg) =
      { status := HAL_Status.error, failure := some InitFailure.invalidConfig,
        handle := some SWPMI_HandleInvalidCfg, actions := [], mspInvoked := none } :=
  ⟨by decide, C3_init_invalid_config SWPMI_HandleInvalidCfg (by decide)⟩

/-- C1 counterexample: a handle whose state at entry is Busy, with a
valid configuration; HAL_SWPMI_Init proceeds anyway — it performs the
register reconfiguration writes and moves the handle to Ready — so the
claim that init does not proceed from a Busy state is false on the
code (source lines 256 to 290 contain no entry-state guard). -/
theorem C1_init_busy_counterexample :
    SWPMI_HandleBusy.State = HAL_SWPMI_State.busy ∧
    (HAL_SWPMI_Init (some SWPMI_HandleBusy)).actions.any InitAction.isRegWrite = true ∧
    (HAL_SWPMI_Init (some SWPMI_HandleBusy)).handle.map SWPMI_HandleTypeDef.State =
      some HAL_SWPMI_State.ready := by
  refine ⟨rfl, ?_, ?_⟩ <;> decide

/-- C1 amended: HAL_SWPMI_Init has no entry-state guard; every call
with a non-null handle and a valid configuration — whatever the entry
state, including the Busy states, Timeout and Error — returns HAL_OK,
performs the peripheral reconfiguration register writes and leaves the
handle in Ready. -/
theorem C1_init_no_entry_state_guard (h : SWPMI_HandleTypeDef)
    (hv : SWPMI_ConfigValid h.Init = true) :
    (HAL_SWPMI_Init (some h)).status = HAL_Status.ok ∧
    (HAL_SWPMI_Init (some h)).actions.any InitAction.isRegWrite = true ∧
    (HAL_SWPMI_Init (some h)).handle.map SWPMI_HandleTypeDef.State =
      some HAL_SWPMI_State.ready := by
  by_cases hs : h.State = HAL_SWPMI_State.reset <;>
    simp [HAL_SWPMI_Init, hv, hs, SWPMI_Init_resetActions, SWPMI_Init_configActions,
      SWPMI_Init_configure, InitAction.isRegWrite]

/-- Witness for the amended C1 at the concrete Busy-state handle. -/
theorem C1_init_no_entry_state_guard_witness :
    SWPMI_ConfigValid SWPMI_HandleBusy.Init = true ∧
    ((HAL_SWPMI_Init (some SWPMI_HandleBusy)).status = HAL_Status.ok ∧
     (HAL_SWPMI_Init (some SWPMI_HandleBusy)).actions.any InitAction.isRegWrite = true ∧
     (HAL_SWPMI_Init (some SWPMI_HandleBusy)).handle.map SWPMI_HandleTypeDef.State =
       some HAL_SWPMI_State.ready) :=
  ⟨by decide, C1_init_no_entry_state_guard SWPMI_HandleBusy (by decide)⟩

/-- C4: with a valid handle (non-null, valid configuration), init
invokes the Msp-init collaborator and initializes the handle lock
exactly when the entry state is Reset, and it re-applies the voltage
class configuration to the OR register regardless of the entry
state. -/
theorem C4_init_msp_and_lock_exactly_on_reset (h : SWPMI_HandleTypeDef)
    (hv : SWPMI_ConfigValid h.Init = true) :
    ((HAL_SWPMI_Init (some h)).mspInvoked.isSome = true ↔
      h.State = HAL_SWPMI_State.reset) ∧
    (InitAction.setLockUnlocked ∈ (HAL_SWPMI_Init (some h)).actions ↔
      h.State = HAL_SWPMI_State.reset) ∧
    InitAction.regModifyORClass h.Init.VoltageClass ∈ (HAL_SWPMI_Init (some h)).actions := by
  by_cases hs : h.State = HAL_SWPMI_State.reset <;>
    simp [HAL_SWPMI_Init, hv, hs, SWPMI_Init_resetActions, SWPMI_Init_configActions]

/-- Witness for C4 at a concrete Reset-state handle carrying a user
MspInit callback. -/
theorem C4_init_msp_and_lock_exactly_on_reset_witness :
    SWPMI_ConfigValid SWPMI_HandleResetUser.Init = true ∧
    (((HAL_SWPMI_Init (some SWPMI_HandleResetUser)).mspInvoked.isSome = true ↔
       SWPMI_HandleResetUser.State = HAL_SWPMI_State.reset) ∧
     (InitAction.setLockUnlocked ∈ (HAL_SWPMI_Init (some SWPMI_HandleResetUser)).actions ↔
       SWPMI_HandleResetUser.State = HAL_SWPMI_State.reset) ∧
     InitAction.regModifyORClass SWPMI_HandleResetUser.Init.VoltageClass ∈
       (HAL_SWPMI_Init (some SWPMI_HandleResetUser)).actions) :=
  ⟨by decide, C4_init_msp_and_lock_exactly_on_reset SWPMI_HandleResetUser (by decide)⟩

/-- C9: when init runs from the Reset state (callback registration
enabled, valid configuration), the five transfer callback slots are
unconditionally reset to the weak defaults, while the MspInit slot is
replaced by the default only when it is NULL — a user MspInit
registered beforehand is kept, and that callback is the one invoked
for the hardware bring-up (source lines 261 to 274). -/
theorem C9_init_reset_callback_defaults (h : SWPMI_HandleTypeDef)
    (hv : SWPMI_ConfigValid h.Init = true)
    (hs : h.State = HAL_SWPMI_State.reset) :
    ∃ ho, (HAL_SWPMI_Init (some h)).handle = some ho ∧
      ho.RxCpltCallback = some CbPtr.weakRxCplt ∧
      ho.RxHalfCpltCallback = some CbPtr.weakRxHalfCplt ∧
      ho.TxCpltCallback = some CbPtr.weakTxCplt ∧
      ho.TxHalfCpltCallback = some CbPtr.weakTxHalfCplt ∧
      ho.ErrorCallback = some CbPtr.weakError ∧
      ho.MspInitCallback = some (h.MspInitCallback.getD CbPtr.weakMspInit) ∧
      (HAL_SWPMI_Init (some h)).mspInvoked =
        some (h.MspInitCallback.getD CbPtr.weakMspInit) := by
  refine ⟨SWPMI_Init_configure (SWPMI_Init_resetBranch h), ?_⟩
  simp [HAL_SWPMI_Init, hv, hs, SWPMI_Init_configure, SWPMI_Init_resetBranch]

/-- Witness for C9: the concrete Reset-state handle with user
callbacks in every slot; the five transfer slots come back reset to
the weak defaults while the user MspInit (user 7) is kept and is the
callback invoked. -/
theorem C9_init_reset_callback_defaults_witness :
    ∃ ho, (HAL_SWPMI_Init (some SWPMI_HandleResetUser)).handle = some ho ∧
      ho.RxCpltCallback = some CbPtr.weakRxCplt ∧
      ho.RxHalfCpltCallback = some CbPtr.weakRxHalfCplt ∧
      ho.TxCpltCallback = some CbPtr.weakTxCplt ∧
      ho.TxHalfCpltCallback = some CbPtr.weakTxHalfCplt ∧
      ho.ErrorCallback = some CbPtr.weakError ∧
      ho.MspInitCallback = some (CbPtr.user 7) ∧
      (HAL_SWPMI_Init (some SWPMI_HandleResetUser)).mspInvoked = some (CbPtr.user 7) :=
  C9_init_reset_callback_defaults SWPMI_HandleResetUser (by decide) rfl

/-- C10 counterexample: a non-null handle whose configuration fails
validation passes the null-handle check, yet init performs none of the
claimed steps — it does not set the state to Busy and issues no
register write — because the configuration validation rejects the call
first (validation is modelled from the spec, the assert_param
machinery being absent from src/). -/
theorem C10_init_invalid_config_counterexample :
    (InitAction.setState HAL_SWPMI_State.busy ∉
      (HAL_SWPMI_Init (some SWPMI_HandleInvalidCfg)).actions) ∧
    (HAL_SWPMI_Init (some SWPMI_HandleInvalidCfg)).actions.any InitAction.isRegWrite = false := by
  refine ⟨?_, ?_⟩ <;> decide

/-- C10 amended: every init call that passes the null-handle check and
the configuration validation — from any prior handle state — first
sets the handle state to Busy, then clears the SWPACT bit of CR
(disabling the interface), then clears all interface flags by writing
0x019F to ICR, and only then applies the voltage-class configuration
to the OR register; everything preceding this sequence is free of
register writes, so the peripheral is never reconfigured while
enabled.  The resulting register values match the CLEAR_BIT, WRITE_REG
and MODIFY_REG semantics. -/
theorem C10_init_disable_before_reconfigure (h : SWPMI_HandleTypeDef)
    (hv : SWPMI_ConfigValid h.Init = true) :
    ∃ pre, (HAL_SWPMI_Init (some h)).actions =
        pre ++ [InitAction.setState HAL_SWPMI_State.busy, InitAction.regClearSWPACT,
                InitAction.regWriteICR 0x019F,
                InitAction.regModifyORClass h.Init.VoltageClass,
                InitAction.regApplyRemainingConfig,
                InitAction.setState HAL_SWPMI_State.ready] ∧
      (∀ a ∈ pre, a.isRegWrite = false) ∧
      ∃ ho, (HAL_SWPMI_Init (some h)).handle = some ho ∧
        ho.Instance.CR = h.Instance.CR &&& (mask32 ^^^ SWPMI_CR_SWPACT) ∧
        ho.Instance.ICR = 0x019F ∧
        ho.Instance.OR =
          (h.Instance.OR &&& (mask32 ^^^ SWPMI_OR_CLASS)) ||| h.Init.VoltageClass := by
  by_cases hs : h.State = HAL_SWPMI_State.reset
  · refine ⟨SWPMI_Init_resetActions h, ?_, ?_, ?_⟩
    · simp [HAL_SWPMI_Init, hv, hs, SWPMI_Init_configActions]
    · intro a ha
      simp [SWPMI_Init_resetActions] at ha
      rcases ha with rfl | rfl | rfl <;> rfl
    · refine ⟨SWPMI_Init_configure (SWPMI_Init_resetBranch h), ?_⟩
      simp [HAL_SWPMI_Init, hv, hs, SWPMI_Init_configure, SWPMI_Init_resetBranch]
  · refine ⟨[], ?_, ?_, ?_⟩
    · simp [HAL_SWPMI_Init, hv, hs, SWPMI_Init_configActions]
    · intro a ha
      simp at ha
    · refine ⟨SWPMI_Init_configure h, ?_⟩
      simp [HAL_SWPMI_Init, hv, hs, SWPMI_Init_configure]

/-- Witness for the amended C10 at the concrete Busy-state handle. -/
theorem C10_init_disable_before_reconfigure_witness :
    SWPMI_ConfigValid SWPMI_HandleBusy.Init = true ∧
    (∃ pre, (HAL_SWPMI_Init (some SWPMI_HandleBusy)).actions =
        pre ++ [InitAction.setState HAL_SWPMI_State.busy, InitAction.regClearSWPACT,
                InitAction.regWriteICR 0x019F,
                InitAction.regModifyORClass SWPMI_HandleBusy.Init.VoltageClass,
                InitAction.regApplyRemainingConfig,
                InitAction.setState HAL_SWPMI_State.ready] ∧
      (∀ a ∈ pre, a.isRegWrite = false) ∧
      ∃ ho, (HAL_SWPMI_Init (some SWPMI_HandleBusy)).handle = some ho ∧
        ho.Instance.CR = SWPMI_HandleBusy.Instance.CR &&& (mask32 ^^^ SWPMI_CR_SWPACT) ∧
        ho.Instance.ICR = 0x019F ∧
        ho.Instance.OR =
          (SWPMI_HandleBusy.Instance.OR &&& (mask32 ^^^ SWPMI_OR_CLASS)) |||
            SWPMI_HandleBusy.Init.VoltageClass) :=
  ⟨by decide, C10_init_disable_before_reconfigure SWPMI_HandleBusy (by decide)⟩

/-- C5: callback registration succeeds exactly while the handle is
Ready, or — for the Msp-kind callbacks only — also while it is Reset;
from any other state (in particular any Busy state) it returns
InvalidState and leaves the handle unchanged. -/
theorem C5_register_callback_state_guard (h : SWPMI_HandleTypeDef)
    (id : SWPMI_CallbackID) (cb : CbPtr) :
    ((HAL_SWPMI_RegisterCallback h id cb).1 = RegisterStatus.ok ↔
      (h.State = HAL_SWPMI_State.ready ∨
       (id.isMspKind = true ∧ h.State = HAL_SWPMI_State.reset))) ∧
    ((HAL_SWPMI_RegisterCallback h id cb).1 = RegisterStatus.ok ∨
     ((HAL_SWPMI_RegisterCallback h id cb).1 = RegisterStatus.invalidState ∧
      (HAL_SWPMI_RegisterCallback h id cb).2 = h)) := by
  by_cases hc : h.State = HAL_SWPMI_State.ready ∨
      (id.isMspKind = true ∧ h.State = HAL_SWPMI_State.reset) <;>
    simp [HAL_SWPMI_RegisterCallback, hc]

/-- C6: a transfer request (either direction, any mode) issued while
the handle is not Ready fails with Busy, performs no register
mutation, and leaves the handle (state included) unchanged. -/
theorem C6_transfer_not_ready_rejected (h : SWPMI_HandleTypeDef)
    (dir : TransferDir) (mode : TransferMode) (len : Nat) (pred : Nat → Bool)
    (tickstart bound : Nat) (hs : h.State ≠ HAL_SWPMI_State.ready) :
    SWPMI_TransferRequest h dir mode len pred tickstart bound =
      { status := HAL_Status.busy, handle := h, regActivity := [], count := 0 } := by
  simp [SWPMI_TransferRequest, hs]

/-- Witness for C6: a second transmit issued on the handle produced by
a first interrupt-mode transmit (still in flight, state BusyTx) is
rejected with Busy and mutates nothing. -/
theorem C6_transfer_not_ready_rejected_witness :
    SWPMI_HandleInFlight.State ≠ HAL_SWPMI_State.ready ∧
    SWPMI_TransferRequest SWPMI_HandleInFlight TransferDir.tx TransferMode.interrupt
        3 predNever 0 10 =
      { status := HAL_Status.busy, handle := SWPMI_HandleInFlight,
        regActivity := [], count := 0 } :=
  ⟨by decide,
   C6_transfer_not_ready_rejected SWPMI_HandleInFlight TransferDir.tx
     TransferMode.interrupt 3 predNever 0 10 (by decide)⟩

/-- C7: the shared blocking wait returns Ok at the first tick at which
the predicate holds (when that tick is inside the window), returns
Timeout exactly at the first tick at which the elapsed time exceeds
the bound when the predicate stayed false, and a Poll-mode transfer
whose completion flag never sets ends with status Timeout, a
transferred-count of 0 fully completed units, and the handle in the
Timeout state. -/
theorem C7_wait_until_timeout_semantics :
    (∀ (pred : Nat → Bool) (startTime timeoutBound u : Nat),
        startTime ≤ u → u ≤ startTime + timeoutBound + 1 → pred u = true →
        (∀ s, s < u → startTime ≤ s → pred s = false) →
        waitUntil pred startTime timeoutBound = (WaitResult.ok, u)) ∧
    (∀ (pred : Nat → Bool) (startTime timeoutBound : Nat),
        (∀ s, s ≤ startTime + timeoutBound + 1 → startTime ≤ s → pred s = false) →
        waitUntil pred startTime timeoutBound =
          (WaitResult.timeout, startTime + timeoutBound + 1)) ∧
    (∀ (h : SWPMI_HandleTypeDef) (pred : Nat → Bool) (tickstart bound len : Nat),
        h.State = HAL_SWPMI_State.ready → 0 < len → (∀ t, pred t = false) →
        (SWPMI_TransferRequest h TransferDir.tx TransferMode.poll len pred
            tickstart bound).status = HAL_Status.timeout ∧
        (SWPMI_TransferRequest h TransferDir.tx TransferMode.poll len pred
            tickstart bound).count = 0 ∧
        (SWPMI_TransferRequest h TransferDir.tx TransferMode.poll len pred
            tickstart bound).handle.State = HAL_SWPMI_State.timeout) := by
  refine ⟨?_, ?_, ?_⟩
  · intro pred st tb u h1 h2 h3 h4
    unfold waitUntil SWPMI_WaitOnFlagSetUntilTimeout
    have hf : st + tb + 1 - st = tb + 1 := by omega
    rw [hf]
    exact SWPMI_WaitLoop_ok pred (tb + 1) st u h1 (by omega) h3 h4
  · intro pred st tb hall
    unfold waitUntil SWPMI_WaitOnFlagSetUntilTimeout
    have hf : st + tb + 1 - st = tb + 1 := by omega
    rw [hf, SWPMI_WaitLoop_timeout pred (tb + 1) st (fun s h1 h2 => hall s (by omega) h2)]
    rfl
  · intro h pred ts tb len hs hlen hp
    cases len with
    | zero => omega
    | succ k =>
      have hw : SWPMI_WaitOnFlagSetUntilTimeout pred ts tb ts =
          (WaitResult.timeout, ts + (ts + tb + 1 - ts)) := by
        unfold SWPMI_WaitOnFlagSetUntilTimeout
        exact SWPMI_WaitLoop_timeout pred (ts + tb + 1 - ts) ts (fun s h1 h2 => hp s)
      have hpoll : SWPMI_PollTransfer pred ts tb ts (k + 1) 0 =
          (HAL_Status.timeout, 0, ts + (ts + tb + 1 - ts)) := by
        simp only [SWPMI_PollTransfer]
        rw [hw]
      refine ⟨?_, ?_, ?_⟩ <;> simp [SWPMI_TransferRequest, hs, hpoll]

/-- Witness for C7: a flag first setting at tick 3 makes the wait
entered at tick 2 with bound 5 return Ok at tick 3; a never-setting
flag makes it time out at tick 8, the first tick past the bound; a
4-unit Poll transfer whose flag never sets times out with count 0 and
the concrete Ready handle left in the Timeout state. -/
theorem C7_wait_until_timeout_semantics_witness :
    waitUntil predEqThree 2 5 = (WaitResult.ok, 3) ∧
    waitUntil predNever 2 5 = (WaitResult.timeout, 8) ∧
    ((SWPMI_TransferRequest SWPMI_HandleReady TransferDir.tx TransferMode.poll
        4 predNever 0 10).status = HAL_Status.timeout ∧
     (SWPMI_TransferRequest SWPMI_HandleReady TransferDir.tx TransferMode.poll
        4 predNever 0 10).count = 0 ∧
     (SWPMI_TransferRequest SWPMI_HandleReady TransferDir.tx TransferMode.poll
        4 predNever 0 10).handle.State = HAL_SWPMI_State.timeout) :=
  ⟨C7_wait_until_timeout_semantics.1 predEqThree 2 5 3 (by omega) (by omega)
     (by decide) (by decide),
   C7_wait_until_timeout_semantics.2.1 predNever 2 5 (by decide),
   C7_wait_until_timeout_semantics.2.2 SWPMI_HandleReady predNever 0 10 4 rfl
     (by omega) (fun t => rfl)⟩

/-- C8: a zero-length transmit or receive on a Ready handle (any
direction, any mode) completes immediately with transferred-count 0,
performs no register activity, and leaves the handle unchanged in
Ready. -/
theorem C8_zero_length_transfer (h : SWPMI_HandleTypeDef) (dir : TransferDir)
    (mode : TransferMode) (pred : Nat → Bool) (tickstart bound : Nat)
    (hs : h.State = HAL_SWPMI_State.ready) :
    SWPMI_TransferRequest h dir mode 0 pred tickstart bound =
      { status := HAL_Status.ok, handle := h, regActivity := [], count := 0 } := by
  simp [SWPMI_TransferRequest, hs]

/-- Witness for C8 at the concrete Ready handle, Poll-mode receive. -/
theorem C8_zero_length_transfer_witness :
    SWPMI_HandleReady.State = HAL_SWPMI_State.ready ∧
    SWPMI_TransferRequest SWPMI_HandleReady TransferDir.rx TransferMode.poll
        0 predNever 0 10 =
      { status := HAL_Status.ok, handle := SWPMI_HandleReady,
        regActivity := [], count := 0 } :=
  ⟨rfl, C8_zero_length_transfer SWPMI_HandleReady TransferDir.rx TransferMode.poll
    predNever 0 10 rfl⟩
